import Mathlib

/-!
# Verification of the Monitoring repository

Shallow embedding of `src/app.py` (the metrics-instrumented Flask API) and
`src/remediation_scripts/alert_webhook.py` (the alert webhook receiver),
with theorems settling the frozen claims about them.

Conventions of the embedding:
* A Flask handler's return value is either a bare `Response` object (which
  carries a `status_code` attribute, 200 for a plain `jsonify(...)` result)
  or a `(body, code)` tuple, which as a Python object carries **no**
  `status_code` attribute.  `getattr(response, 'status_code', 200)` is
  modelled by `statusOf`.
* Metric mutations performed by the middleware are modelled as a trace of
  `MetricEvent`s, in the order the source performs them.
* Randomness (`random.random() < 0.1`) and wall-clock time are modelled as
  explicit parameters (`failBranch`, `now`): the claims are about the
  branches, not about the distribution.
* Python dynamic faults (`AttributeError` on `.get` of a non-dict,
  `TypeError` on iterating a non-iterable) are modelled with `Option`.
-/

/-- A JSON value, as produced by `request.get_json()`. -/
inductive Json where
  | null : Json
  | bool (b : Bool) : Json
  | num (n : Int) : Json
  | str (s : String) : Json
  | arr (xs : List Json) : Json
  | obj (kvs : List (String × Json)) : Json
deriving Repr

/-- Python `d.get(k, dflt)`: succeeds only on a dict (`Json.obj`); on any
other value the attribute access raises (`none` = `AttributeError`). -/
def Json.dictGet : Json → String → Json → Option Json
  | .obj kvs, k, dflt => some ((kvs.lookup k).getD dflt)
  | _, _, _ => none

/-- Python `j == '<s>'` for a string literal: true exactly when `j` is that
string (comparison with a non-string value is `False`, not an error). -/
def Json.eqStr : Json → String → Bool
  | .str t, s => t == s
  | _, _ => false

/-! ## `src/app.py`: the metrics middleware -/

/-- The value a wrapped handler returns to `metrics_middleware` (before
Flask post-processing): a bare `Response` with a `status_code` attribute,
or a `(body, code)` tuple, which has no such attribute. -/
inductive HandlerResult where
  | resp (status : Nat) : HandlerResult
  | tuple (status : Nat) : HandlerResult
deriving Repr, DecidableEq

/-- `getattr(response, 'status_code', 200)` (app.py line 58): the
`status_code` attribute when the object has one, else the default 200. -/
def statusOf : HandlerResult → Nat
  | .resp s => s
  | .tuple _ => 200

/-- The actual HTTP status the client sees once Flask unpacks the
handler's return value. -/
def httpStatusOf : HandlerResult → Nat
  | .resp s => s
  | .tuple s => s

/-- Either the wrapped handler returns a value, or it raises an uncaught
exception. -/
inductive HandlerOutcome where
  | ok (r : HandlerResult) : HandlerOutcome
  | exn : HandlerOutcome
deriving Repr, DecidableEq

/-- One metric mutation performed by the middleware, in source order. -/
inductive MetricEvent where
  | reqCount (method endpoint : String) (status : Nat) : MetricEvent
  | durObs (method endpoint : String) : MetricEvent
  | errCount (method endpoint : String) (status : Nat) : MetricEvent
  | setActive (n : Int) : MetricEvent
  | sampleSystem : MetricEvent
deriving Repr, DecidableEq

/-- `request.endpoint or 'unknown'` (app.py lines 62/68/75/85):
Python `or` takes the right operand on a falsy left operand, i.e. on
`None` or the empty string. -/
def endpointLabel : Option String → String
  | none => "unknown"
  | some s => if s = "" then "unknown" else s

/-- `metrics_middleware`'s `decorated_function` (app.py lines 44-98),
as the trace of metric events it performs plus the value it returns.
`active0` is the value of the global `active_connections` on entry. -/
def metrics_middleware (method : String) (endpoint : Option String)
    (active0 : Int) (outcome : HandlerOutcome) :
    List MetricEvent × HandlerResult :=
  let ep := endpointLabel endpoint
  let enter := [MetricEvent.setActive (active0 + 1)]
  let fin := [MetricEvent.setActive active0, MetricEvent.sampleSystem]
  match outcome with
  | .ok r =>
      let s := statusOf r
      let mid := [MetricEvent.reqCount method ep s, MetricEvent.durObs method ep]
        ++ (if 400 ≤ s then [MetricEvent.errCount method ep s] else [])
      (enter ++ mid ++ fin, r)
  | .exn =>
      (enter ++ [MetricEvent.errCount method ep 500] ++ fin,
       HandlerResult.tuple 500)

/-- How many `REQUEST_COUNT` increments a trace contains. -/
def countReq (evs : List MetricEvent) : Nat :=
  (evs.filter fun e => match e with | .reqCount _ _ _ => true | _ => false).length

/-- How many `REQUEST_COUNT` increments with the given labels a trace
contains. -/
def countReqWith (m ep : String) (s : Nat) (evs : List MetricEvent) : Nat :=
  (evs.filter fun e => match e with
    | .reqCount m' ep' s' => m' == m && ep' == ep && s' == s
    | _ => false).length

/-- How many `ERROR_COUNT` increments with the given labels a trace
contains. -/
def countErrWith (m ep : String) (s : Nat) (evs : List MetricEvent) : Nat :=
  (evs.filter fun e => match e with
    | .errCount m' ep' s' => m' == m && ep' == ep && s' == s
    | _ => false).length

/-- How many duration-histogram observations a trace contains. -/
def countDur (evs : List MetricEvent) : Nat :=
  (evs.filter fun e => match e with | .durObs _ _ => true | _ => false).length

/-! ## `src/app.py`: orders -/

/-- An order record as built by `create_order` (app.py lines 144-150).
The timestamp is the wall-clock value at creation, an opaque parameter. -/
structure Order where
  id : Nat
  product : String
  quantity : Int
  price : Int
  timestamp : Int
deriving Repr, DecidableEq

/-- The payload of `POST /api/orders` after JSON parsing: each field is
optional and defaulted by `data.get(...)` (app.py lines 146-148). -/
structure OrderData where
  product : Option String
  quantity : Option Int
  price : Option Int
deriving Repr, DecidableEq

/-- The JSON body `jsonify(order)` serialises. -/
def orderJson (o : Order) : Json :=
  Json.obj [("id", Json.num o.id), ("product", Json.str o.product),
            ("quantity", Json.num o.quantity), ("price", Json.num o.price),
            ("timestamp", Json.num o.timestamp)]

/-- `create_order` (app.py lines 131-161).  `data = none` models
`request.get_json()` raising or the payload not supporting `.get`
(caught by the `except`, line 161: 400).  `failBranch` is the outcome of
`random.random() < 0.1` (line 140).  Returns the new store, the new
`ORDER_COUNT` value, the HTTP status and the body. -/
def create_order (failBranch : Bool) (data : Option OrderData) (now : Int)
    (orders : List Order) (orderCount : Nat) :
    List Order × Nat × Nat × Json :=
  match data with
  | none => (orders, orderCount, 400, Json.obj [("error", Json.str "Invalid order data")])
  | some d =>
    if failBranch then
      (orders, orderCount, 500, Json.obj [("error", Json.str "Order processing failed")])
    else
      let order : Order :=
        { id := orders.length + 1
          product := d.product.getD "Unknown"
          quantity := d.quantity.getD 1
          price := d.price.getD 0
          timestamp := now }
      (orders ++ [order], orderCount + 1, 201, orderJson order)

/-- A sequence of successful order creations (the random-failure branch
disabled), each step providing its payload and wall-clock time. -/
def runCreates (steps : List (OrderData × Int)) (orders : List Order) :
    List Order :=
  match steps with
  | [] => orders
  | (d, t) :: rest =>
      runCreates rest (create_order false (some d) t orders 0).1

/-- `get_order` (app.py lines 165-174): the first stored order whose id
matches, else a 404 error body. -/
def get_order (order_id : Nat) (orders : List Order) : Nat × Json :=
  match orders.find? (fun o => o.id == order_id) with
  | some o => (200, orderJson o)
  | none => (404, Json.obj [("error", Json.str "Order not found")])

/-- `simulate_error` (app.py lines 178-187).  The `type` query parameter
defaults to `'server'`; the order store is returned unchanged (the
handler never touches it). -/
def simulate_error (typeParam : Option String) (orders : List Order) :
    Nat × Json × List Order :=
  let error_type := typeParam.getD "server"
  if error_type = "client" then
    (400, Json.obj [("error", Json.str "Bad request simulation")], orders)
  else if error_type = "server" then
    (500, Json.obj [("error", Json.str "Internal server error simulation")], orders)
  else
    (404, Json.obj [("error", Json.str "Not found simulation")], orders)

/-! ## `src/app.py`: the route table

One entry per `@app.route` declaration, recording whether the handler is
additionally decorated with `@metrics_middleware`. -/

/-- A registered Flask route of the API service. -/
structure Route where
  path : String
  methods : List String
  handler : String
  wrapped : Bool
deriving Repr, DecidableEq

/-- All routes of `src/app.py`, in source order (lines 102-225).
`wrapped` records the presence of the `@metrics_middleware` decorator. -/
def appRoutes : List Route :=
  [ ⟨"/health", ["GET"], "health_check", true⟩,
    ⟨"/metrics", ["GET"], "metrics", false⟩,
    ⟨"/api/orders", ["GET"], "get_orders", true⟩,
    ⟨"/api/orders", ["POST"], "create_order", true⟩,
    ⟨"/api/orders/<int:order_id>", ["GET"], "get_order", true⟩,
    ⟨"/api/simulate-error", ["GET"], "simulate_error", true⟩,
    ⟨"/api/simulate-slow", ["GET"], "simulate_slow", true⟩,
    ⟨"/api/memory-stress", ["GET"], "memory_stress", true⟩,
    ⟨"/", ["GET"], "index", true⟩ ]

/-! ## `src/remediation_scripts/alert_webhook.py` -/

/-- A remediation command from the static dispatch table
(alert_webhook.py lines 42-72). -/
inductive RemAction where
  | dockerRestart : RemAction
  | diskCleanup : RemAction
deriving Repr, DecidableEq

/-- One `subprocess.run` remediation invocation.  `exitFailure` records
whether the command exited nonzero (raising `CalledProcessError`, which
the source catches and merely logs, lines 51-52/61-62/71-72). -/
structure Invocation where
  action : RemAction
  exitFailure : Bool
deriving Repr, DecidableEq

/-- One line appended to `/var/log/alerts.log` (alert_webhook.py lines
25-37).  The wall-clock timestamp field is external input and omitted. -/
structure LogEntry where
  alert : Json
  status : Json
  labels : Json
  annotations : Json
deriving Repr

/-- The remediation dispatch for one alert (alert_webhook.py lines
42-72): only when `status == 'firing'`, keyed by `labels.alertname`.
`fails` gives each command's exit outcome. -/
def remActionsFor (alertName status : Json) (fails : RemAction → Bool) :
    List Invocation :=
  if status.eqStr "firing" then
    if alertName.eqStr "HighMemoryUsage" then
      [⟨RemAction.dockerRestart, fails RemAction.dockerRestart⟩]
    else if alertName.eqStr "HighDiskUsage" then
      [⟨RemAction.diskCleanup, fails RemAction.diskCleanup⟩]
    else if alertName.eqStr "AppDown" then
      [⟨RemAction.dockerRestart, fails RemAction.dockerRestart⟩]
    else []
  else []

/-- Processing of one alert of the batch (alert_webhook.py lines 20-72).
All `.get` accesses happen before the log line is written, so a dynamic
fault (`none`: the alert, or its `labels` value, is not a dict) produces
neither a log line nor an invocation for this alert. -/
def processAlert (fails : RemAction → Bool) (alert : Json) :
    Option (LogEntry × List Invocation) :=
  match alert.dictGet "labels" (Json.obj []) with
  | none => none
  | some labels =>
    match labels.dictGet "alertname" (Json.str "Unknown") with
    | none => none
    | some alertName =>
      match alert.dictGet "status" (Json.str "unknown") with
      | none => none
      | some status =>
        match alert.dictGet "annotations" (Json.obj []) with
        | none => none
        | some annotations =>
          some (⟨alertName, status, labels, annotations⟩,
                remActionsFor alertName status fails)

/-- The `for alert in ...` loop: log lines and invocations accumulate in
order; a dynamic fault aborts the loop keeping the side effects already
performed (file appends persist). -/
def processAlerts (fails : RemAction → Bool) :
    List Json → List LogEntry → List Invocation →
    Bool × List LogEntry × List Invocation
  | [], logs, invs => (true, logs, invs)
  | a :: rest, logs, invs =>
    match processAlert fails a with
    | none => (false, logs, invs)
    | some (entry, acts) =>
        processAlerts fails rest (logs ++ [entry]) (invs ++ acts)

/-- Python iteration over the value of `alerts`: lists yield their
elements, strings their one-character substrings, dicts their keys;
other values raise `TypeError` (`none`). -/
def iterable : Json → Option (List Json)
  | .arr xs => some xs
  | .str s => some (s.toList.map fun c => Json.str (String.mk [c]))
  | .obj kvs => some (kvs.map fun kv => Json.str kv.1)
  | _ => none

/-- The response body of `/webhook`. -/
inductive WebhookResp where
  | success : WebhookResp
  | error (msg : String) : WebhookResp
deriving Repr, DecidableEq

/-- `handle_alert` (alert_webhook.py lines 15-78).  `body = none` models
`request.get_json()` raising on a body that is not valid JSON; any
exception reaches the outer `except` (lines 76-78) and yields 500 with
an error field, keeping the side effects performed so far.  Returns
(status, body, log lines appended, remediation invocations run). -/
def handle_alert (fails : RemAction → Bool) (body : Option Json) :
    Nat × WebhookResp × List LogEntry × List Invocation :=
  match body with
  | none => (500, WebhookResp.error "parse failure", [], [])
  | some j =>
    match j.dictGet "alerts" (Json.arr []) with
    | none => (500, WebhookResp.error "AttributeError", [], [])
    | some alertsVal =>
      match iterable alertsVal with
      | none => (500, WebhookResp.error "TypeError", [], [])
      | some alerts =>
        match processAlerts fails alerts [] [] with
        | (true, logs, invs) => (200, WebhookResp.success, logs, invs)
        | (false, logs, invs) =>
            (500, WebhookResp.error "AttributeError", logs, invs)

/-! ## Theorems -/

/-- C1 (counterexample): when the wrapped handler raises an uncaught
exception, the middleware's exception branch (app.py lines 81-90)
increments only `ERROR_COUNT`; the request counter is incremented zero
times, not exactly once as claimed. -/
theorem metrics_middleware_exn_reqcount_zero :
    countReq (metrics_middleware "POST" (some "create_order") 0
      HandlerOutcome.exn).1 ≠ 1 := by decide

/-- C1 (amended): the request counter is incremented exactly once when
the wrapped handler returns (normally or with an error status); on an
uncaught exception it is not incremented at all — instead the error
counter labeled (method, endpoint, 500) is incremented exactly once. -/
theorem metrics_middleware_reqcount (m : String) (e : Option String)
    (a : Int) :
    (∀ r : HandlerResult,
      countReq (metrics_middleware m e a (HandlerOutcome.ok r)).1 = 1) ∧
    countReq (metrics_middleware m e a HandlerOutcome.exn).1 = 0 ∧
    countErrWith m (endpointLabel e) 500
      (metrics_middleware m e a HandlerOutcome.exn).1 = 1 := by
  refine ⟨fun r => ?_, ?_, ?_⟩
  · simp only [metrics_middleware, countReq]
    by_cases h : 400 ≤ statusOf r <;> simp [h]
  · simp [metrics_middleware, countReq]
  · simp [metrics_middleware, countErrWith]

/-- C2: on normal return the middleware records the request counter once
with status `statusOf r` — the handler result's `status_code` attribute,
defaulting to 200 when the returned object (a `(body, code)` tuple)
carries none — and increments the error counter with the same
(method, endpoint, status) labels exactly when that status is ≥ 400. -/
theorem metrics_middleware_status_labels (m : String) (e : Option String)
    (a : Int) (r : HandlerResult) :
    countReqWith m (endpointLabel e) (statusOf r)
        (metrics_middleware m e a (HandlerOutcome.ok r)).1 = 1 ∧
    countErrWith m (endpointLabel e) (statusOf r)
        (metrics_middleware m e a (HandlerOutcome.ok r)).1
      = (if 400 ≤ statusOf r then 1 else 0) ∧
    (∀ s : Nat, statusOf (HandlerResult.tuple s) = 200) := by
  refine ⟨?_, ?_, fun s => rfl⟩
  · simp only [metrics_middleware, countReqWith]
    by_cases h : 400 ≤ statusOf r <;> simp [h]
  · simp only [metrics_middleware, countErrWith]
    by_cases h : 400 ≤ statusOf r <;> simp [h]

/-- C3 (counterexample): the `/metrics` handler (app.py lines 112-115)
carries no `@metrics_middleware` decorator — not every HTTP handler of
the API service is wrapped by the instrumentation wrapper. -/
theorem metrics_route_not_wrapped :
    Route.mk "/metrics" ["GET"] "metrics" false ∈ appRoutes := by decide

/-- C3 (amended): every HTTP handler of the API service except the
`/metrics` exposition handler is wrapped by the instrumentation wrapper,
and on every call the wrapper records the request count and duration
(on normal return), updates the active-connection gauge on entry and
exit, and re-samples the host CPU/memory/disk gauges. -/
theorem appRoutes_wrapped_except_metrics :
    appRoutes.filter (fun r => !r.wrapped)
      = [Route.mk "/metrics" ["GET"] "metrics" false] ∧
    (∀ (m : String) (e : Option String) (a : Int) (r : HandlerResult),
      countReq (metrics_middleware m e a (HandlerOutcome.ok r)).1 = 1 ∧
      countDur (metrics_middleware m e a (HandlerOutcome.ok r)).1 = 1) ∧
    (∀ (m : String) (e : Option String) (a : Int) (o : HandlerOutcome),
      MetricEvent.setActive (a + 1) ∈ (metrics_middleware m e a o).1 ∧
      MetricEvent.setActive a ∈ (metrics_middleware m e a o).1 ∧
      MetricEvent.sampleSystem ∈ (metrics_middleware m e a o).1) := by
  refine ⟨by decide, fun m e a r => ⟨?_, ?_⟩, fun m e a o => ?_⟩
  · simp only [metrics_middleware, countReq]
    by_cases h : 400 ≤ statusOf r <;> simp [h]
  · simp only [metrics_middleware, countDur]
    by_cases h : 400 ≤ statusOf r <;> simp [h]
  · cases o with
    | ok r =>
      refine ⟨?_, ?_, ?_⟩ <;> simp [metrics_middleware]
    | exn =>
      refine ⟨?_, ?_, ?_⟩ <;> simp [metrics_middleware]

/-- C7: with the payload parsed, the simulated-failure branch of
`create_order` returns 500 leaving the store and the order counter
unchanged; the other branch appends exactly one order (id =
`len(orders) + 1`, fields defaulted from the payload), increments the
order counter and returns 201 with the created order's body. -/
theorem create_order_branches (d : OrderData) (now : Int)
    (orders : List Order) (cnt : Nat) :
    create_order true (some d) now orders cnt =
      (orders, cnt, 500, Json.obj [("error", Json.str "Order processing failed")]) ∧
    create_order false (some d) now orders cnt =
      (orders ++ [⟨orders.length + 1, d.product.getD "Unknown",
                   d.quantity.getD 1, d.price.getD 0, now⟩],
       cnt + 1, 201,
       orderJson ⟨orders.length + 1, d.product.getD "Unknown",
                  d.quantity.getD 1, d.price.getD 0, now⟩) := by
  exact ⟨rfl, rfl⟩

/-- C8: `simulate_error` returns 400 for `type=client`, 500 for
`type=server`, 404 for any other value, and 500 when the parameter is
omitted (the default is `'server'`), each with its fixed error body,
and never touches the order store. -/
theorem simulate_error_spec (t : Option String) (orders : List Order) :
    simulate_error t orders =
      (if t = some "client" then
        (400, Json.obj [("error", Json.str "Bad request simulation")], orders)
       else if t = some "server" ∨ t = none then
        (500, Json.obj [("error", Json.str "Internal server error simulation")], orders)
       else
        (404, Json.obj [("error", Json.str "Not found simulation")], orders)) := by
  cases t with
  | none => simp [simulate_error]
  | some s =>
    by_cases h1 : s = "client"
    · simp [simulate_error, h1]
    · by_cases h2 : s = "server" <;> simp [simulate_error, h1, h2]

/-! ### Order-store lemmas -/

/-- The order one successful `create_order` builds when the store
already holds `k - 1` orders (so the new id is `k`). -/
def mkOrder (d : OrderData) (t : Int) (k : Nat) : Order :=
  ⟨k, d.product.getD "Unknown", d.quantity.getD 1, d.price.getD 0, t⟩

/-- The orders appended by a run of successful creations begun when the
store already held `base` orders. -/
def createdOrders (base : Nat) : List (OrderData × Int) → List Order
  | [] => []
  | (d, t) :: rest => mkOrder d t (base + 1) :: createdOrders (base + 1) rest

lemma runCreates_eq (steps : List (OrderData × Int)) (orders : List Order) :
    runCreates steps orders = orders ++ createdOrders orders.length steps := by
  induction steps generalizing orders with
  | nil => simp [runCreates, createdOrders]
  | cons p rest ih =>
    obtain ⟨d, t⟩ := p
    show runCreates rest (orders ++ [mkOrder d t (orders.length + 1)]) = _
    rw [ih]
    simp [createdOrders]

lemma createdOrders_map_id (base : Nat) (steps : List (OrderData × Int)) :
    (createdOrders base steps).map Order.id
      = List.range' (base + 1) steps.length := by
  induction steps generalizing base with
  | nil => simp [createdOrders]
  | cons p rest ih =>
    obtain ⟨d, t⟩ := p
    simp only [createdOrders, List.map_cons, ih, List.length_cons]
    rw [List.range'_succ]
    rfl

lemma createdOrders_length (base : Nat) (steps : List (OrderData × Int)) :
    (createdOrders base steps).length = steps.length := by
  have h := congrArg List.length (createdOrders_map_id base steps)
  simpa using h

/-- C4: starting from the empty store, N successful sequential creations
(the random-failure branch disabled) leave N orders whose ids are the
contiguous increasing sequence 1..N (each assigned as
`count_at_insertion + 1`). -/
theorem runCreates_contiguous_ids (steps : List (OrderData × Int)) :
    (runCreates steps []).length = steps.length ∧
    (runCreates steps []).map Order.id = List.range' 1 steps.length := by
  rw [runCreates_eq]
  constructor
  · simpa using createdOrders_length 0 steps
  · simpa using createdOrders_map_id 0 steps

lemma get_order_notfound (orders : List Order) (i : Nat)
    (h : ∀ o ∈ orders, o.id ≠ i) :
    get_order i orders
      = (404, Json.obj [("error", Json.str "Order not found")]) := by
  unfold get_order
  have hnone : orders.find? (fun o => o.id == i) = none := by
    rw [List.find?_eq_none]
    intro o ho
    simpa using h o ho
  rw [hnone]

lemma get_order_found (orders : List Order) (i : Nat) (o : Order)
    (hnd : (orders.map Order.id).Nodup) (ho : o ∈ orders) (hid : o.id = i) :
    get_order i orders = (200, orderJson o) := by
  unfold get_order
  have hfind : orders.find? (fun x => x.id == i) = some o := by
    induction orders with
    | nil => cases ho
    | cons a rest ih =>
      simp only [List.map_cons, List.nodup_cons] at hnd
      rcases List.mem_cons.mp ho with h | h
      · subst h
        exact List.find?_cons_of_pos rest (by simp [hid])
      · have hne : ¬ ((fun x => x.id == i) a = true) := by
          simp only [beq_iff_eq]
          intro hai
          apply hnd.1
          rw [hai, ← hid]
          exact List.mem_map_of_mem Order.id h
        rw [List.find?_cons_of_neg rest hne]
        exact ih hnd.2 h
  rw [hfind]

lemma runCreates_ids_nodup (steps : List (OrderData × Int)) :
    ((runCreates steps []).map Order.id).Nodup := by
  rw [runCreates_eq]
  simp only [List.nil_append, List.length_nil]
  rw [createdOrders_map_id]
  exact List.nodup_range' _ _

/-- C9: `get_order` returns 404 with the error body whenever no stored
order carries the requested id (for any store), returns the stored
order itself — the one created with that id, serialised with its
creation fields — whenever the store's ids are duplicate-free and such
an order exists, and every store produced by sequential successful
creations from empty has duplicate-free ids. -/
theorem get_order_spec :
    (∀ (orders : List Order) (i : Nat), (∀ o ∈ orders, o.id ≠ i) →
        get_order i orders
          = (404, Json.obj [("error", Json.str "Order not found")])) ∧
    (∀ (orders : List Order) (i : Nat) (o : Order),
        (orders.map Order.id).Nodup → o ∈ orders → o.id = i →
        get_order i orders = (200, orderJson o)) ∧
    (∀ steps : List (OrderData × Int),
        ((runCreates steps []).map Order.id).Nodup) :=
  ⟨get_order_notfound, get_order_found, runCreates_ids_nodup⟩

/-- C9 witness: a store built by one creation serves that order back,
and the empty store serves a 404 for id 999999. -/
theorem get_order_spec_witness :
    get_order 1 (runCreates [(⟨some "widget", some 2, some 30⟩, 7)] [])
      = (200, orderJson ⟨1, "widget", 2, 30, 7⟩) ∧
    get_order 999999 []
      = (404, Json.obj [("error", Json.str "Order not found")]) := by
  constructor
  · exact get_order_spec.2.1 (runCreates [(⟨some "widget", some 2, some 30⟩, 7)] [])
      1 ⟨1, "widget", 2, 30, 7⟩ (by decide) (by decide) rfl
  · exact get_order_spec.1 [] 999999 (by intro o ho; cases ho)

/-! ### Webhook lemmas and theorems -/

/-- The spec's example alert: labels `{alertname: HighDiskUsage}` with
the given status. -/
def diskAlert (status : String) : Json :=
  Json.obj [("labels", Json.obj [("alertname", Json.str "HighDiskUsage")]),
            ("status", Json.str status)]

/-- The spec's example webhook payload. -/
def diskBody (status : String) : Json :=
  Json.obj [("alerts", Json.arr [diskAlert status])]

/-- C5: remediation runs only for firing alerts, dispatched by alertname
per the fixed table (HighMemoryUsage and AppDown restart the container,
HighDiskUsage runs the cleanup script, anything else does nothing); the
example firing HighDiskUsage batch yields exactly one cleanup invocation
and one appended log line, and the same batch with status `resolved`
yields the log line and no invocation. -/
theorem webhook_dispatch_spec :
    (∀ (name status : Json) (f : RemAction → Bool),
        status.eqStr "firing" = false → remActionsFor name status f = []) ∧
    (∀ f : RemAction → Bool,
        remActionsFor (Json.str "HighMemoryUsage") (Json.str "firing") f
          = [⟨RemAction.dockerRestart, f RemAction.dockerRestart⟩] ∧
        remActionsFor (Json.str "HighDiskUsage") (Json.str "firing") f
          = [⟨RemAction.diskCleanup, f RemAction.diskCleanup⟩] ∧
        remActionsFor (Json.str "AppDown") (Json.str "firing") f
          = [⟨RemAction.dockerRestart, f RemAction.dockerRestart⟩]) ∧
    (∀ (name : Json) (f : RemAction → Bool),
        name.eqStr "HighMemoryUsage" = false →
        name.eqStr "HighDiskUsage" = false →
        name.eqStr "AppDown" = false →
        remActionsFor name (Json.str "firing") f = []) ∧
    (∀ f : RemAction → Bool,
        handle_alert f (some (diskBody "firing"))
          = (200, WebhookResp.success,
             [⟨Json.str "HighDiskUsage", Json.str "firing",
               Json.obj [("alertname", Json.str "HighDiskUsage")], Json.obj []⟩],
             [⟨RemAction.diskCleanup, f RemAction.diskCleanup⟩])) ∧
    (∀ f : RemAction → Bool,
        handle_alert f (some (diskBody "resolved"))
          = (200, WebhookResp.success,
             [⟨Json.str "HighDiskUsage", Json.str "resolved",
               Json.obj [("alertname", Json.str "HighDiskUsage")], Json.obj []⟩],
             [])) := by
  refine ⟨?_, fun f => ⟨rfl, rfl, rfl⟩, ?_, fun f => rfl, fun f => rfl⟩
  · intro name status f h
    simp [remActionsFor, h]
  · intro name f h1 h2 h3
    simp [remActionsFor, h1, h2, h3]

/-- C5 witness: a resolved HighDiskUsage alert and a firing alert with
an unlisted alertname both dispatch no remediation. -/
theorem webhook_dispatch_spec_witness :
    remActionsFor (Json.str "HighDiskUsage") (Json.str "resolved")
      (fun _ => false) = [] ∧
    remActionsFor (Json.str "SomethingElse") (Json.str "firing")
      (fun _ => true) = [] := by
  constructor
  · exact webhook_dispatch_spec.1 _ _ _ (by decide)
  · exact webhook_dispatch_spec.2.2.1 _ _ (by decide) (by decide) (by decide)

/-- C10: a JSON-object body without an `alerts` key, or with an empty
`alerts` array, yields 200 `{status: success}` with no log line written
and no remediation invoked. -/
theorem handle_alert_no_alerts (f : RemAction → Bool)
    (kvs : List (String × Json)) :
    (kvs.lookup "alerts" = none →
      handle_alert f (some (Json.obj kvs))
        = (200, WebhookResp.success, [], [])) ∧
    (kvs.lookup "alerts" = some (Json.arr []) →
      handle_alert f (some (Json.obj kvs))
        = (200, WebhookResp.success, [], [])) := by
  constructor <;> intro h <;>
    simp [handle_alert, Json.dictGet, h, iterable, processAlerts]

/-- C10 witness: the empty object and `{alerts: []}` both yield
200/success with no side effects. -/
theorem handle_alert_no_alerts_witness :
    handle_alert (fun _ => false) (some (Json.obj []))
      = (200, WebhookResp.success, [], []) ∧
    handle_alert (fun _ => false) (some (Json.obj [("alerts", Json.arr [])]))
      = (200, WebhookResp.success, [], []) :=
  ⟨(handle_alert_no_alerts (fun _ => false) []).1 rfl,
   (handle_alert_no_alerts (fun _ => false) [("alerts", Json.arr [])]).2 rfl⟩

/-- An alert object the loop body can process without a dynamic fault:
a dict whose `labels` value (defaulting to `{}`) is itself a dict. -/
def wellShapedAlert : Json → Bool
  | .obj kvs =>
    match (kvs.lookup "labels").getD (Json.obj []) with
    | .obj _ => true
    | _ => false
  | _ => false

lemma processAlert_isSome (f : RemAction → Bool) (a : Json)
    (h : wellShapedAlert a = true) : (processAlert f a).isSome = true := by
  cases a with
  | obj kvs =>
    simp only [wellShapedAlert] at h
    cases hl : (kvs.lookup "labels").getD (Json.obj []) <;> rw [hl] at h <;>
      simp_all [processAlert, Json.dictGet]
  | null => exact absurd h (by simp [wellShapedAlert])
  | bool b => exact absurd h (by simp [wellShapedAlert])
  | num n => exact absurd h (by simp [wellShapedAlert])
  | str s => exact absurd h (by simp [wellShapedAlert])
  | arr xs => exact absurd h (by simp [wellShapedAlert])

lemma processAlerts_all_ok (f : RemAction → Bool) (xs : List Json)
    (h : ∀ a ∈ xs, wellShapedAlert a = true) :
    ∀ (logs : List LogEntry) (invs : List Invocation),
      (processAlerts f xs logs invs).1 = true := by
  induction xs with
  | nil => intro logs invs; rfl
  | cons a rest ih =>
    intro logs invs
    have ha := processAlert_isSome f a (h a (List.mem_cons_self a rest))
    simp only [processAlerts]
    cases hp : processAlert f a with
    | none => rw [hp] at ha; simp at ha
    | some pr =>
      obtain ⟨entry, acts⟩ := pr
      exact ih (fun b hb => h b (List.mem_cons_of_mem a hb)) _ _

/-- C6 (counterexample): the body `[]` parses as JSON, yet the endpoint
returns 500 (the `.get` attribute access on a non-dict raises, reaching
the outer `except`), not 200 as the claim requires for every
JSON-parsable payload. -/
theorem handle_alert_json_array_500 :
    handle_alert (fun _ => false) (some (Json.arr []))
      = (500, WebhookResp.error "AttributeError", [], []) := rfl

/-- C6 (amended): for every POST /webhook whose payload parses as a JSON
object and whose `alerts` value (defaulting to `[]`) is an array of
alert objects whose `labels` values are objects, the endpoint returns
200 with `{status: success}` after iterating the batch, regardless of
any remediation command's exit status; if payload parsing fails (body
not valid JSON), it returns 500 with an error field, having written no
log line and invoked no remediation. -/
theorem handle_alert_success_spec (f : RemAction → Bool) :
    (∀ (kvs : List (String × Json)) (xs : List Json),
        (kvs.lookup "alerts").getD (Json.arr []) = Json.arr xs →
        (∀ a ∈ xs, wellShapedAlert a = true) →
        (handle_alert f (some (Json.obj kvs))).1 = 200 ∧
        (handle_alert f (some (Json.obj kvs))).2.1 = WebhookResp.success) ∧
    handle_alert f none = (500, WebhookResp.error "parse failure", [], []) := by
  refine ⟨?_, rfl⟩
  intro kvs xs hx hshape
  have hok := processAlerts_all_ok f xs hshape [] []
  unfold handle_alert
  simp only [Json.dictGet, hx, iterable]
  rcases hp : processAlerts f xs [] [] with ⟨b, logs, invs⟩
  rw [hp] at hok
  simp only at hok
  subst hok
  simp

/-- C6 witness: a well-shaped firing batch yields 200 even when every
remediation command exits nonzero. -/
theorem handle_alert_success_spec_witness :
    (handle_alert (fun _ => true) (some (Json.obj [("alerts",
        Json.arr [Json.obj
          [("labels", Json.obj [("alertname", Json.str "AppDown")]),
           ("status", Json.str "firing")]])]))).1 = 200 := by
  exact ((handle_alert_success_spec (fun _ => true)).1
    [("alerts", Json.arr [Json.obj
      [("labels", Json.obj [("alertname", Json.str "AppDown")]),
       ("status", Json.str "firing")]])]
    [Json.obj [("labels", Json.obj [("alertname", Json.str "AppDown")]),
               ("status", Json.str "firing")]]
    (by rfl) (by decide)).1
